import Mathlib

/-!
Shallow embedding of the `stepik_teachers` web application
(`src/app.py` and `src/data_loader.py`) for checking its
natural-language specification.

Conventions of the embedding:
* Python exceptions are modelled with `Except PyErr`; a handler that
  finishes with an unhandled exception corresponds to an HTTP 500.
* The SQL database is a record of lists (`AppState`); committed writes
  append to those lists.
* The JSON data file of `data_loader.py` is a partial map from paths to
  datasets (`FS`); `load_json`'s unbounded recursion is made total with
  an explicit fuel parameter (`none` = the recursion did not finish
  within the given fuel).
* `random.sample(xs, len(xs))` is modelled by an arbitrary shuffling
  function passed in as a parameter.
* Python `dict`s are modelled as association lists (insertion order is
  preserved, keys are unique in the data handled here).
* Numeric fields: `rating` is ℚ, `price` is ℤ.
-/

/-- Decidable equality for `Except`, used to evaluate the embedded
handlers on concrete inputs. -/
instance exceptDecEq {ε α : Type} [DecidableEq ε] [DecidableEq α] :
    DecidableEq (Except ε α) := fun x y =>
  match x, y with
  | Except.ok a, Except.ok b =>
    decidable_of_iff (a = b) ⟨congrArg Except.ok, Except.ok.inj⟩
  | Except.error a, Except.error b =>
    decidable_of_iff (a = b) ⟨congrArg Except.error, Except.error.inj⟩
  | Except.ok _, Except.error _ => isFalse fun h => Except.noConfusion h
  | Except.error _, Except.ok _ => isFalse fun h => Except.noConfusion h

/-- Python exceptions that the embedded code can raise. -/
inductive PyErr where
  | valueError
  | typeError
  | keyError
  | attributeError
deriving Repr, DecidableEq

/-- A teacher record (`models.Teacher` / an entry of the `teachers` list in
the JSON data file).  `free` maps a weekday short-name to the list of
(time-slot label, availability flag) pairs; `goals` is the list of goal
names of the teacher. -/
structure Teacher where
  id : Nat
  name : String
  about : String
  rating : ℚ
  picture : String
  price : Int
  free : List (String × List (String × Bool))
  goals : List String
deriving Repr, DecidableEq

/-- A goal record (`models.Goal`). -/
structure Goal where
  id : Nat
  name : String
  ru_name : String
deriving Repr, DecidableEq

/-- A weekday record (`models.Weekday`). -/
structure Weekday where
  short_name : String
  ru_name : String
deriving Repr, DecidableEq

/-- A persisted `Request` row (`models.Request`).  `goal_id` is stored as
the string taken from `form.goals.data` (the code comments on it being a
string). -/
structure RequestRow where
  name : String
  goal_id : String
  phone : String
  time : String
deriving Repr, DecidableEq

/-- A persisted `Booking` row (`models.Booking`). -/
structure BookingRow where
  name : String
  phone : String
  teacher_id : Nat
  day_short_name : String
  time : String
deriving Repr, DecidableEq

/-- The relational store the Flask app works against. -/
structure AppState where
  teachers : List Teacher
  goals : List Goal
  weekdays : List Weekday
  requests : List RequestRow
  bookings : List BookingRow
deriving Repr, DecidableEq

/-- One entry of a teacher's derived free-time structure built by
`render_profile`: the weekday short-name, its Russian display name and
the labels of the slots whose availability flag is true. -/
structure FreeDay where
  day : String
  ru_name : String
  timeslots : List String
deriving Repr, DecidableEq

/-- The pages the embedded handlers can render, with the data passed to
the template. -/
inductive Page where
  | errorPage
  | allPage (teachers : List Teacher) (sortBy : String)
  | goalPage (g : Goal) (teachers : List Teacher)
  | profilePage (t : Teacher) (goals : List String) (free_times : List FreeDay)
  | requestDonePage (name : String) (goal : Option Goal) (time : String)
  | bookingDonePage (weekday : Option Weekday) (name : String)
deriving Repr, DecidableEq

/-- An HTTP response: status code plus rendered page. -/
structure Response where
  status : Nat
  page : Page
deriving Repr, DecidableEq

/-! ## `data_loader.py` -/

/-- The dataset stored in `data/data.json` by `create_data`:
`dict(goals=data.goals, teachers=data.teachers, weekdays=data.weekdays)`. -/
structure DataSet where
  goals : List (String × String)
  teachers : List Teacher
  weekdays : List (String × String)
deriving Repr, DecidableEq

/-- The file system seen by `data_loader.py`: what JSON dataset, if any,
is stored at each path. -/
def FS : Type := String → Option DataSet

/-- `DATA_PATH = 'data/data.json'` in `data_loader.py`. -/
def DATA_PATH : String := "data/data.json"

/-- Modelled from the spec: the static fixture dataset provided by
`data.py`, which is not under `src/` ("a static in-memory dataset of
weekdays, goals, and tutors").  The concrete values stand in for the
real fixture; the claims do not depend on its contents. -/
def fixtureData : DataSet where
  goals := [("travel", "Для путешествий"), ("study", "Для учёбы")]
  teachers :=
    [{ id := 0, name := "Elon Doe", about := "tutor", rating := 4,
       picture := "pic0.png", price := 900,
       free := [("mon", [("8:00", true), ("10:00", false)])],
       goals := ["travel"] }]
  weekdays := [("mon", "Понедельник"), ("tue", "Вторник")]

/-- `create_data` of `data_loader.py`: writes the fixture dataset to the
file at `DATA_PATH` (and only there). -/
def create_data (fs : FS) : FS :=
  fun p => if p = DATA_PATH then some fixtureData else fs p

/-- `load_json` of `data_loader.py`, fuel-indexed.  The source opens
`path`; on `FileNotFoundError` it calls `create_data()` (which writes
only `DATA_PATH`) and retries `load_json(path)` on the same path.
`none` means the recursion did not finish within `fuel` calls. -/
def load_json : Nat → FS → String → Option (FS × DataSet)
  | 0, _, _ => none
  | fuel + 1, fs, path =>
    match fs path with
    | some d => some (fs, d)
    | none => load_json fuel (create_data fs) path

/-- `get_all_teachers` of `data_loader.py`:
`load_json(DATA_PATH)['teachers']`.  Returns the possibly-updated file
system together with the value. -/
def get_all_teachers (fuel : Nat) (fs : FS) : Option (FS × List Teacher) :=
  (load_json fuel fs DATA_PATH).map fun r => (r.1, r.2.teachers)

/-- `get_teacher` of `data_loader.py`:
`find(get_all_teachers(), {'id': teacher_id})`.  `pydash.find` returns
the first match or `None`; it never raises. -/
def get_teacher (fuel : Nat) (fs : FS) (teacher_id : Nat) :
    Option (FS × Option Teacher) :=
  (get_all_teachers fuel fs).map fun r =>
    (r.1, r.2.find? fun t => t.id == teacher_id)

/-- `get_goals` of `data_loader.py` in its plain form (no teacher filter,
emoji kept): `load_json(DATA_PATH)['goals']`. -/
def get_goals (fuel : Nat) (fs : FS) : Option (FS × List (String × String)) :=
  (load_json fuel fs DATA_PATH).map fun r => (r.1, r.2.goals)

/-- `get_weekdays` of `data_loader.py`: `load_json(DATA_PATH)['weekdays']`. -/
def get_weekdays (fuel : Nat) (fs : FS) : Option (FS × List (String × String)) :=
  (load_json fuel fs DATA_PATH).map fun r => (r.1, r.2.weekdays)

/-- Modelled from the spec: the Persistence Layer sentence "get one
teacher by id (fails with NotFound if absent)" — an id lookup that fails
with an error when the id is absent (`forms.py`/`models.py` are not
under `src/`; this is the behaviour the spec describes, to be compared
with `get_teacher` of the source). -/
def get_teacher_spec (d : DataSet) (teacher_id : Nat) : Except Unit Teacher :=
  match d.teachers.find? (fun t => t.id == teacher_id) with
  | some t => Except.ok t
  | none => Except.error ()

/-! ## Python `int()` on strings

`sort_teachers` begins with `sort_type = int(sort_type)`.  We model
CPython's `int` applied to a string: surrounding whitespace is ignored,
an optional single `+`/`-` sign is allowed, then decimal digits with
single underscores permitted between digits; anything else raises
`ValueError`.  (String primitives do not reduce well in the kernel, so
the parser works on the underlying character list.) -/

/-- Characters Python strips around an integer literal. -/
def isPyWs (c : Char) : Bool :=
  c = ' ' || c = '\t' || c = '\n' || c = '\r' || c = '\x0b' || c = '\x0c'

/-- Decimal digit test by code point. -/
def isPyDigit (c : Char) : Bool :=
  48 ≤ c.toNat && c.toNat ≤ 57

/-- Numeric value of a decimal digit character. -/
def digitVal (c : Char) : Nat := c.toNat - 48

/-- Continues a digit run: digits, with a single underscore allowed only
between two digits. -/
def pyDigitsRest : Nat → List Char → Option Nat
  | acc, [] => some acc
  | acc, [c] => if isPyDigit c then some (acc * 10 + digitVal c) else none
  | acc, c :: c2 :: cs =>
    if isPyDigit c then pyDigitsRest (acc * 10 + digitVal c) (c2 :: cs)
    else if c = '_' && isPyDigit c2 then pyDigitsRest acc (c2 :: cs)
    else none

/-- A nonempty digit run (first character must be a digit). -/
def pyDigits : List Char → Option Nat
  | [] => none
  | c :: cs => if isPyDigit c then pyDigitsRest (digitVal c) cs else none

/-- Strips leading and trailing Python whitespace. -/
def stripWs (l : List Char) : List Char :=
  ((l.dropWhile isPyWs).reverse.dropWhile isPyWs).reverse

/-- CPython `int(s)` for a string `s`: `none` models `ValueError`. -/
def pythonInt (s : String) : Option Int :=
  match stripWs s.data with
  | '+' :: rest => (pyDigits rest).map fun n => (n : Int)
  | '-' :: rest => (pyDigits rest).map fun n => -(n : Int)
  | l => (pyDigits l).map fun n => (n : Int)

/-! ## `app.py` -/

/-- `Teacher.query.order_by(Teacher.rating.desc()).all()`: the teachers
sorted by rating in descending order. -/
def sortByRatingDesc (ts : List Teacher) : List Teacher :=
  List.insertionSort (fun a b => b.rating ≤ a.rating) ts

/-- `Teacher.query.order_by(Teacher.price.desc()).all()`: the teachers
sorted by price in descending order. -/
def sortByPriceDesc (ts : List Teacher) : List Teacher :=
  List.insertionSort (fun a b => b.price ≤ a.price) ts

/-- `Teacher.query.order_by(Teacher.price).all()`: the teachers sorted
by price in ascending order. -/
def sortByPriceAsc (ts : List Teacher) : List Teacher :=
  List.insertionSort (fun a b => a.price ≤ b.price) ts

/-- `sort_teachers` of `app.py`.  `int(sort_type)` may raise
`ValueError`; codes 1/2/3 select an order, any other integer falls
through to `random.sample(all_teachers, len(all_teachers))`, modelled by
the shuffling function `shuffle`. -/
def sort_teachers (sort_type : String) (st : AppState)
    (shuffle : List Teacher → List Teacher) : Except PyErr (List Teacher) :=
  match pythonInt sort_type with
  | none => Except.error PyErr.valueError
  | some n =>
    if n = 1 then Except.ok (sortByRatingDesc st.teachers)
    else if n = 2 then Except.ok (sortByPriceDesc st.teachers)
    else if n = 3 then Except.ok (sortByPriceAsc st.teachers)
    else Except.ok (shuffle st.teachers)

/-- Modelled from the spec: the default value of `SortForm.sort_by`
(`forms.py` is not under `src/`).  The route table says the default sort
is random, so the default code is a stringified integer outside
{1, 2, 3}. -/
def defaultSortBy : String := "0"

/-- `render_all` of `app.py`.  `request.args.get('sort_by')` is `none`
when the query parameter is absent; Python truthiness makes the empty
string fall back to the form's default as well.  `SortForm` passes the
raw string through as `form.sort_by.data`. -/
def render_all (st : AppState) (sort_by : Option String)
    (shuffle : List Teacher → List Teacher) : Except PyErr Response :=
  let s := match sort_by with
    | some v => if v = "" then defaultSortBy else v
    | none => defaultSortBy
  (sort_teachers s st shuffle).map fun ts =>
    { status := 200, page := Page.allPage ts s }

/-- `render_goal` of `app.py`.  `db.session.query(Goal).get(goal_id)`
returns `None` when the id is absent; the handler then evaluates
`goal.teachers`, which raises `AttributeError` on `None` (an unhandled
exception, i.e. HTTP 500 — the registered error handler only covers
404).  `goal.teachers` is the many-to-many join of teachers whose goal
list contains the goal's name. -/
def render_goal (st : AppState) (goal_id : Nat) : Except PyErr Response :=
  match st.goals.find? (fun g => g.id == goal_id) with
  | none => Except.error PyErr.attributeError
  | some g =>
    Except.ok { status := 200,
                page := Page.goalPage g
                  (st.teachers.filter fun t => t.goals.contains g.name) }

/-- The free-times dict comprehension of `render_profile`: for each
`(day, times)` entry of `teacher.free`, in order, look up the weekday
(`pydash.find` over the weekday table; a miss yields `None` and the
following `.ru_name` access raises `AttributeError`) and keep the slots
whose flag is true. -/
def freeTimes (weekdays : List Weekday) :
    List (String × List (String × Bool)) → Except PyErr (List FreeDay)
  | [] => Except.ok []
  | (day, times) :: rest =>
    match weekdays.find? (fun w => w.short_name == day) with
    | none => Except.error PyErr.attributeError
    | some w =>
      (freeTimes weekdays rest).map fun ft =>
        { day := day, ru_name := w.ru_name,
          timeslots := (times.filter fun p => p.2).map fun p => p.1 } :: ft

/-- `render_profile` of `app.py`.  `Teacher.query.get_or_404` aborts
with HTTP 404 when the id is absent; the registered 404 handler renders
the generic error page. -/
def render_profile (st : AppState) (teacher_id : Nat) : Except PyErr Response :=
  match st.teachers.find? (fun t => t.id == teacher_id) with
  | none => Except.ok { status := 404, page := Page.errorPage }
  | some t =>
    (freeTimes st.weekdays t.free).map fun ft =>
      { status := 200, page := Page.profilePage t t.goals ft }

/-- The field data of a submitted Request form, as read back by
`RequestForm()` from the POST body. -/
structure RequestSub where
  name : String
  phone : String
  goals : String
  times : String
deriving Repr, DecidableEq

/-- Modelled from the spec: the fixed enumerated set of preferred-time
choices of the Request form's `times` field (`forms.py` is not under
`src/`; the spec lists "1–3 hours/week", "3–5 hours/week",
"5–7 hours/week", "7–10 hours/week"). -/
def timesChoices : List (String × String) :=
  [("1", "1-3 hours/week"), ("2", "3-5 hours/week"),
   ("3", "5-7 hours/week"), ("4", "7-10 hours/week")]

/-- Modelled from the spec: the Request/Booking forms' phone rule
("validated against a phone-number pattern", example `+1234567890`): an
optional leading `+` followed by at least ten digits.  The handlers in
`app.py` never consult it; it only states hypotheses. -/
def phoneWellFormed (s : String) : Bool :=
  match s.data with
  | '+' :: rest => rest.length ≥ 10 && rest.all isPyDigit
  | l => l.length ≥ 10 && l.all isPyDigit

/-- `render_request_done` of `app.py`.  The handler performs no
validation: it resolves the goal (`Goal.query.get` on the submitted
string id — `None` when absent), resolves the time label
(`dict(form.times.choices)[form.times.data]` — `KeyError` when the
submitted code is not a choice), unconditionally appends a `Request`
row built from the raw form data, commits, and renders the confirmation
page. -/
def render_request_done (st : AppState) (sub : RequestSub) :
    Except PyErr (AppState × Response) :=
  let goal_ru := st.goals.find? fun g => toString g.id == sub.goals
  match timesChoices.lookup sub.times with
  | none => Except.error PyErr.keyError
  | some time_chosen =>
    Except.ok
      ({ st with requests := st.requests ++
          [{ name := sub.name, goal_id := sub.goals,
             phone := sub.phone, time := time_chosen }] },
       { status := 200,
         page := Page.requestDonePage sub.name goal_ru time_chosen })

/-- The field data of a submitted Booking form, as read back by
`BookingForm()` from the POST body (`teacher_id`, `weekday` and `time`
are the hidden fields). -/
structure BookingSub where
  name : String
  phone : String
  teacher_id : Nat
  weekday : String
  time : String
deriving Repr, DecidableEq

/-- `render_booking_done` of `app.py`.  No validation is performed: the
handler looks up the weekday row for the confirmation page
(`.first()` — `None` when absent), unconditionally appends a `Booking`
row built from the raw form data, commits, and renders the confirmation
page.  Nothing here can raise. -/
def render_booking_done (st : AppState) (sub : BookingSub) :
    AppState × Response :=
  let wd := st.weekdays.find? fun w => w.short_name == sub.weekday
  ({ st with bookings := st.bookings ++
      [{ name := sub.name, phone := sub.phone, teacher_id := sub.teacher_id,
         day_short_name := sub.weekday, time := sub.time }] },
   { status := 200, page := Page.bookingDonePage wd sub.name })

/-! ## Concrete instances used to evaluate the embedding -/

/-- The empty file system: no data file exists at any path. -/
def fsEmpty : FS := fun _ => none

/-- A file system whose only file is the fixture dataset at `DATA_PATH`. -/
def fs1 : FS := fun p => if p = DATA_PATH then some fixtureData else none

/-- A concrete teacher used to evaluate the handlers. -/
def teacher1 : Teacher where
  id := 1
  name := "Alice"
  about := "tutor"
  rating := 5
  picture := "alice.png"
  price := 100
  free := [("mon", [("8:00", true), ("10:00", false)]),
           ("tue", [("8:00", false), ("10:00", true)])]
  goals := ["travel"]

/-- A concrete application store with one teacher, one goal and two
weekdays. -/
def st1 : AppState where
  teachers := [teacher1]
  goals := [{ id := 1, name := "travel", ru_name := "Для путешествий" }]
  weekdays := [{ short_name := "mon", ru_name := "Понедельник" },
               { short_name := "tue", ru_name := "Вторник" }]
  requests := []
  bookings := []

/-- A store with three teachers of pairwise distinct prices, used to
evaluate the sorting claims. -/
def st2 : AppState where
  teachers :=
    [{ id := 1, name := "A", about := "", rating := 3, picture := "",
       price := 500, free := [], goals := [] },
     { id := 2, name := "B", about := "", rating := 5, picture := "",
       price := 100, free := [], goals := [] },
     { id := 3, name := "C", about := "", rating := 4, picture := "",
       price := 900, free := [], goals := [] }]
  goals := []
  weekdays := []
  requests := []
  bookings := []

/-- A concrete Booking submission with a well-formed phone and a
teacher, weekday and slot that exist in `st1`. -/
def subAnn : BookingSub where
  name := "Ann"
  phone := "+1234567890"
  teacher_id := 1
  weekday := "mon"
  time := "8:00"

/-! ## Helper lemmas -/

/-- A hit on the data file returns it with the file system untouched. -/
theorem load_json_hit (fuel : Nat) (fs : FS) (path : String) (d : DataSet)
    (h : fs path = some d) : load_json (fuel + 1) fs path = some (fs, d) := by
  simp [load_json, h]

/-- If the requested path is not `DATA_PATH` and its file is missing,
`load_json` fails for every amount of fuel: `create_data` only ever
writes `DATA_PATH`, so the retried open misses again. -/
theorem load_json_missing_aux (path : String) (hp : path ≠ DATA_PATH) :
    ∀ (fuel : Nat) (fs : FS), fs path = none → load_json fuel fs path = none := by
  intro fuel
  induction fuel with
  | zero => intro fs _; rfl
  | succ n ih =>
    intro fs h
    have h2 : create_data fs path = none := by simp [create_data, hp, h]
    simp [load_json, h, ih (create_data fs) h2]

/-- A slot label survives the availability filter of `render_profile`
exactly when its flag in the teacher's free-map is true. -/
theorem slot_filter_map_mem (times : List (String × Bool)) (slot : String) :
    slot ∈ (times.filter fun p => p.2).map (fun p => p.1) ↔ (slot, true) ∈ times := by
  simp only [List.mem_map, List.mem_filter]
  constructor
  · rintro ⟨⟨a, b⟩, ⟨hmem, hb⟩, ha⟩
    simp only at hb ha
    rw [← ha]
    cases b
    · cases hb
    · exact hmem
  · intro h
    exact ⟨(slot, true), ⟨h, rfl⟩, rfl⟩

/-- What a successful `freeTimes` run contains: a (day, slot) pair is
listed exactly when the slot's flag is true in the free-map, and every
listed day carries the Russian name of a weekday row bearing that
short-name. -/
theorem freeTimes_spec (wds : List Weekday) :
    ∀ (free : List (String × List (String × Bool))) (ft : List FreeDay),
      freeTimes wds free = Except.ok ft →
      (∀ day slot, (∃ e ∈ ft, e.day = day ∧ slot ∈ e.timeslots) ↔
        ∃ times, (day, times) ∈ free ∧ (slot, true) ∈ times) ∧
      (∀ e ∈ ft, ∃ w ∈ wds, w.short_name = e.day ∧ e.ru_name = w.ru_name) := by
  intro free
  induction free with
  | nil =>
    intro ft hft
    obtain rfl : ([] : List FreeDay) = ft := by simpa [freeTimes] using hft
    exact ⟨fun day slot => by simp, by simp⟩
  | cons p rest ih =>
    obtain ⟨day, times⟩ := p
    intro ft hft
    simp only [freeTimes] at hft
    cases hw : wds.find? (fun w => w.short_name == day) with
    | none => rw [hw] at hft; cases hft
    | some w =>
      rw [hw] at hft
      cases hrest : freeTimes wds rest with
      | error e => rw [hrest] at hft; cases hft
      | ok ftr =>
        rw [hrest] at hft
        simp only [Except.map, Except.ok.injEq] at hft
        obtain ⟨hiff, hru⟩ := ih ftr hrest
        subst hft
        constructor
        · intro day1 slot
          constructor
          · rintro ⟨e, he, hday, hslot⟩
            rcases List.mem_cons.mp he with rfl | hmem
            · have hd : day = day1 := hday
              subst hd
              exact ⟨times, List.mem_cons_self _ _,
                     (slot_filter_map_mem times slot).mp hslot⟩
            · obtain ⟨ts, hts, hsl⟩ := (hiff day1 slot).mp ⟨e, hmem, hday, hslot⟩
              exact ⟨ts, List.mem_cons_of_mem _ hts, hsl⟩
          · rintro ⟨ts, hts, hsl⟩
            rcases List.mem_cons.mp hts with heq | hmem
            · injection heq with h1 h2
              subst h1
              refine ⟨_, List.mem_cons_self _ _, rfl, ?_⟩
              rw [h2] at hsl
              exact (slot_filter_map_mem times slot).mpr hsl
            · obtain ⟨e, he, hd, hs⟩ := (hiff day1 slot).mpr ⟨ts, hmem, hsl⟩
              exact ⟨e, List.mem_cons_of_mem _ he, hd, hs⟩
        · intro e he
          rcases List.mem_cons.mp he with rfl | hmem
          · refine ⟨w, List.mem_of_find?_eq_some hw, ?_, rfl⟩
            simpa using List.find?_some hw
          · exact hru e hmem

/-- If every day of the free-map has a matching weekday row, `freeTimes`
succeeds. -/
theorem freeTimes_total (wds : List Weekday) :
    ∀ free : List (String × List (String × Bool)),
      (∀ p ∈ free, ∃ w ∈ wds, w.short_name = p.1) →
      ∃ ft, freeTimes wds free = Except.ok ft := by
  intro free
  induction free with
  | nil => intro _; exact ⟨[], rfl⟩
  | cons p rest ih =>
    obtain ⟨day, times⟩ := p
    intro hcov
    obtain ⟨w, hw, hws⟩ := hcov (day, times) (List.mem_cons_self _ _)
    have hfind : (wds.find? fun x => x.short_name == day).isSome :=
      List.find?_isSome.mpr ⟨w, hw, by simp [hws]⟩
    obtain ⟨w2, hw2⟩ := Option.isSome_iff_exists.mp hfind
    obtain ⟨ftr, hftr⟩ := ih fun q hq => hcov q (List.mem_cons_of_mem _ hq)
    exact ⟨{ day := day, ru_name := w2.ru_name,
             timeslots := (times.filter fun p => p.2).map fun p => p.1 } :: ftr,
           by simp [freeTimes, hw2, hftr, Except.map]⟩

/-! ## Claims -/

/-- **C1** (evidence of the divergence): `render_request_done` performs
no validation.  Submitting a Request form with an empty `name` (and
otherwise well-formed fields) is not rejected: the handler persists one
new `Request` row whose `name` is the empty string and renders the
confirmation page, instead of re-rendering the form with errors and
persisting nothing. -/
theorem request_done_empty_name_persists :
    render_request_done st1
      { name := "", phone := "+1234567890", goals := "1", times := "1" } =
    Except.ok
      ({ st1 with requests :=
          [{ name := "", goal_id := "1", phone := "+1234567890",
             time := "1-3 hours/week" }] },
       { status := 200,
         page := Page.requestDonePage ""
           (some { id := 1, name := "travel", ru_name := "Для путешествий" })
           "1-3 hours/week" }) := by decide

/-- **C2** (evidence of the divergence): for a `goal_id` with no `Goal`
row, `render_goal` evaluates `goal.teachers` on `None` and raises
`AttributeError` — an unhandled exception (HTTP 500), not the claimed
404 with the generic error page (the registered error handler only
covers 404). -/
theorem render_goal_absent_raises :
    (∀ g ∈ st1.goals, g.id ≠ 999) ∧
    render_goal st1 999 = Except.error PyErr.attributeError := by
  exact ⟨by decide, by decide⟩

/-- **C8** (counterexample): a read is not state-preserving when the
backing data file is absent — `get_all_teachers` on an empty file
system terminates with the file at `DATA_PATH` created and filled with
the fixture dataset, so the persistent state after the read differs
from the state before it. -/
theorem read_creates_missing_file_counterexample :
    fsEmpty DATA_PATH = none ∧
    (get_all_teachers 2 fsEmpty).map (fun r => r.1 DATA_PATH) =
      some (some fixtureData) := by
  exact ⟨rfl, by decide⟩

/-- **C8** (amended): whenever the backing data file exists, every read
operation of `data_loader.py` — listing teachers, goals or weekdays,
and getting one teacher — returns with the file system unchanged. -/
theorem reads_preserve_existing_file (fuel : Nat) (fs : FS) (d : DataSet)
    (tid : Nat) (h : fs DATA_PATH = some d) :
    get_all_teachers (fuel + 1) fs = some (fs, d.teachers) ∧
    get_goals (fuel + 1) fs = some (fs, d.goals) ∧
    get_weekdays (fuel + 1) fs = some (fs, d.weekdays) ∧
    get_teacher (fuel + 1) fs tid =
      some (fs, d.teachers.find? fun t => t.id == tid) := by
  have hl := load_json_hit fuel fs DATA_PATH d h
  simp [get_all_teachers, get_goals, get_weekdays, get_teacher, hl]

/-- Witness for `reads_preserve_existing_file` at the one-file system. -/
theorem reads_preserve_existing_file_witness :
    fs1 DATA_PATH = some fixtureData ∧
    get_all_teachers 1 fs1 = some (fs1, fixtureData.teachers) ∧
    get_goals 1 fs1 = some (fs1, fixtureData.goals) ∧
    get_weekdays 1 fs1 = some (fs1, fixtureData.weekdays) ∧
    get_teacher 1 fs1 0 =
      some (fs1, fixtureData.teachers.find? fun t => t.id == 0) := by
  have h : fs1 DATA_PATH = some fixtureData := by decide
  exact ⟨h, reads_preserve_existing_file 0 fs1 fixtureData 0 h⟩

/-- **C9** (counterexample): `get_teacher` does not fail with a
NotFound error on an absent id — for id 999 (absent from the fixture
dataset) it returns normally, carrying `None` as the looked-up value,
where the lookup described by the spec fails. -/
theorem get_teacher_returns_none_counterexample :
    (∀ t ∈ fixtureData.teachers, t.id ≠ 999) ∧
    (get_teacher 1 fs1 999).map (fun r => r.2) = some none ∧
    get_teacher_spec fixtureData 999 = Except.error () := by
  exact ⟨by decide, by decide, by decide⟩

/-- **C9** (amended): `get_teacher` returns `None` (not an error)
whenever no teacher with the requested id exists, and the first record
with that id otherwise. -/
theorem get_teacher_lookup_amended (fuel : Nat) (fs : FS) (d : DataSet)
    (tid : Nat) (h : fs DATA_PATH = some d) :
    ∃ r : Option Teacher, get_teacher (fuel + 1) fs tid = some (fs, r) ∧
      (r = none ↔ ∀ t ∈ d.teachers, t.id ≠ tid) ∧
      ∀ t, r = some t → t.id = tid ∧ t ∈ d.teachers := by
  have hl := load_json_hit fuel fs DATA_PATH d h
  refine ⟨d.teachers.find? fun t => t.id == tid, ?_, ?_, ?_⟩
  · simp [get_teacher, get_all_teachers, hl]
  · rw [List.find?_eq_none]
    constructor
    · intro hall t ht
      simpa using hall t ht
    · intro hall t ht
      simpa using hall t ht
  · intro t ht
    exact ⟨by simpa using List.find?_some ht, List.mem_of_find?_eq_some ht⟩

/-- Witness for `get_teacher_lookup_amended` at the one-file system. -/
theorem get_teacher_lookup_amended_witness :
    fs1 DATA_PATH = some fixtureData ∧
    (∃ r : Option Teacher, get_teacher 1 fs1 0 = some (fs1, r) ∧
      (r = none ↔ ∀ t ∈ fixtureData.teachers, t.id ≠ 0) ∧
      ∀ t, r = some t → t.id = 0 ∧ t ∈ fixtureData.teachers) := by
  have h : fs1 DATA_PATH = some fixtureData := by decide
  exact ⟨h, get_teacher_lookup_amended 0 fs1 fixtureData 0 h⟩

/-- **C10**: on the default path `load_json` terminates even when the
data file is initially absent — it creates the file once and recurses
exactly once (two call frames suffice, one does not) — while for any
other path whose file is absent it never terminates: no amount of fuel
makes it return, because `create_data` only ever writes `DATA_PATH`. -/
theorem load_json_default_once_other_never (fs : FS) (path : String)
    (fuel : Nat) (hd : fs DATA_PATH = none) (hp : path ≠ DATA_PATH)
    (ha : fs path = none) :
    load_json 2 fs DATA_PATH = some (create_data fs, fixtureData) ∧
    load_json 1 fs DATA_PATH = none ∧
    load_json fuel fs path = none := by
  refine ⟨?_, ?_, load_json_missing_aux path hp fuel fs ha⟩
  · simp [load_json, hd, create_data]
  · simp [load_json, hd]

/-- Witness for `load_json_default_once_other_never` on the empty file
system and the path `other.json`. -/
theorem load_json_default_once_other_never_witness :
    fsEmpty DATA_PATH = none ∧ "other.json" ≠ DATA_PATH ∧
    fsEmpty "other.json" = none ∧
    load_json 2 fsEmpty DATA_PATH = some (create_data fsEmpty, fixtureData) ∧
    load_json 1 fsEmpty DATA_PATH = none ∧
    load_json 7 fsEmpty "other.json" = none := by
  have h := load_json_default_once_other_never fsEmpty "other.json" 7 rfl
    (by decide) rfl
  exact ⟨rfl, by decide, rfl, h⟩

/-- **C3** (counterexample): a `sort_by` value that is not a Python
integer literal does not fall back to the default sort — `int('abc')`
raises `ValueError` and the request fails instead of rendering. -/
theorem render_all_nonint_sort_fails :
    pythonInt "abc" = none ∧
    render_all st1 (some "abc") id = Except.error PyErr.valueError := by
  exact ⟨by decide, by decide⟩

/-- **C3** (amended): for a `sort_by` value that parses as a Python
integer but is not one of the valid sort codes 1, 2, 3, `render_all`
falls back to the random order and still renders the page of all
teachers; values that do not parse as integers make the `int`
conversion raise and the request fail. -/
theorem render_all_int_code_fallback (st : AppState)
    (shuffle : List Teacher → List Teacher) (s : String) (n : Int)
    (hne : s ≠ "") (hv : pythonInt s = some n)
    (h1 : n ≠ 1) (h2 : n ≠ 2) (h3 : n ≠ 3) :
    render_all st (some s) shuffle =
      Except.ok { status := 200, page := Page.allPage (shuffle st.teachers) s } := by
  simp [render_all, sort_teachers, hne, hv, h1, h2, h3, Except.map]

/-- Witness for `render_all_int_code_fallback` at the unknown numeric
sort code 9. -/
theorem render_all_int_code_fallback_witness :
    ("9" : String) ≠ "" ∧ pythonInt "9" = some 9 ∧ (9 : Int) ≠ 1 ∧
    render_all st1 (some "9") id =
      Except.ok { status := 200, page := Page.allPage (id st1.teachers) "9" } := by
  exact ⟨by decide, by decide, by decide,
    render_all_int_code_fallback st1 id "9" 9 (by decide) (by decide)
      (by decide) (by decide) (by decide)⟩

/-- **C5**: sort code 1 sorts by rating descending — the result is
pairwise (hence adjacent-pairwise) ordered with `a.rating ≥ b.rating`,
and it is a permutation of the full teacher table. -/
theorem sort_code1_rating_desc (st : AppState)
    (shuffle : List Teacher → List Teacher) :
    sort_teachers "1" st shuffle = Except.ok (sortByRatingDesc st.teachers) ∧
    (sortByRatingDesc st.teachers).Sorted (fun a b => b.rating ≤ a.rating) ∧
    List.Perm (sortByRatingDesc st.teachers) st.teachers := by
  refine ⟨rfl, ?_, List.perm_insertionSort _ _⟩
  haveI : IsTotal Teacher (fun a b : Teacher => b.rating ≤ a.rating) :=
    ⟨fun a b => le_total b.rating a.rating⟩
  haveI : IsTrans Teacher (fun a b : Teacher => b.rating ≤ a.rating) :=
    ⟨fun a b c hab hbc => le_trans hbc hab⟩
  exact List.sorted_insertionSort _ _

/-- **C6**: for a teacher table with pairwise distinct prices, sort
code 3 (price ascending) and sort code 2 (price descending) return the
same elements in exactly reversed relative order. -/
theorem sort_price_asc_desc_mutual_reverse (st : AppState)
    (shuffle : List Teacher → List Teacher)
    (hnd : st.teachers.Pairwise fun a b => a.price ≠ b.price) :
    sort_teachers "3" st shuffle = Except.ok (sortByPriceAsc st.teachers) ∧
    sort_teachers "2" st shuffle = Except.ok (sortByPriceDesc st.teachers) ∧
    List.Perm (sortByPriceAsc st.teachers) (sortByPriceDesc st.teachers) ∧
    sortByPriceAsc st.teachers = (sortByPriceDesc st.teachers).reverse := by
  haveI : IsTotal Teacher (fun a b : Teacher => a.price ≤ b.price) :=
    ⟨fun a b => le_total _ _⟩
  haveI : IsTrans Teacher (fun a b : Teacher => a.price ≤ b.price) :=
    ⟨fun a b c => le_trans⟩
  haveI : IsTotal Teacher (fun a b : Teacher => b.price ≤ a.price) :=
    ⟨fun a b => le_total _ _⟩
  haveI : IsTrans Teacher (fun a b : Teacher => b.price ≤ a.price) :=
    ⟨fun a b c hab hbc => le_trans hbc hab⟩
  have hA_sorted : (sortByPriceAsc st.teachers).Sorted
      (fun a b => a.price ≤ b.price) := List.sorted_insertionSort _ _
  have hA_perm : List.Perm (sortByPriceAsc st.teachers) st.teachers :=
    List.perm_insertionSort _ _
  have hD_sorted : (sortByPriceDesc st.teachers).Sorted
      (fun a b => b.price ≤ a.price) := List.sorted_insertionSort _ _
  have hD_perm : List.Perm (sortByPriceDesc st.teachers) st.teachers :=
    List.perm_insertionSort _ _
  have hR_perm : List.Perm (sortByPriceDesc st.teachers).reverse st.teachers :=
    ((sortByPriceDesc st.teachers).reverse_perm).trans hD_perm
  have hR_sorted : (sortByPriceDesc st.teachers).reverse.Sorted
      (fun a b => a.price ≤ b.price) := by
    rw [List.Sorted, List.pairwise_reverse]
    exact hD_sorted
  have hA_ne : (sortByPriceAsc st.teachers).Pairwise
      (fun a b => a.price ≠ b.price) :=
    (hA_perm.pairwise_iff fun h => h.symm).mpr hnd
  have hR_ne : (sortByPriceDesc st.teachers).reverse.Pairwise
      (fun a b => a.price ≠ b.price) :=
    (hR_perm.pairwise_iff fun h => h.symm).mpr hnd
  have hA_lt : (sortByPriceAsc st.teachers).Pairwise
      (fun a b : Teacher => a.price < b.price) :=
    (List.Pairwise.and hA_sorted hA_ne).imp fun h => lt_of_le_of_ne h.1 h.2
  have hR_lt : (sortByPriceDesc st.teachers).reverse.Pairwise
      (fun a b : Teacher => a.price < b.price) :=
    (List.Pairwise.and hR_sorted hR_ne).imp fun h => lt_of_le_of_ne h.1 h.2
  haveI : IsAntisymm Teacher (fun a b : Teacher => a.price < b.price) :=
    ⟨fun a b h1 h2 => absurd h2 (not_lt.mpr h1.le)⟩
  exact ⟨rfl, rfl, hA_perm.trans hD_perm.symm,
    List.eq_of_perm_of_sorted (hA_perm.trans hR_perm.symm) hA_lt hR_lt⟩

/-- Witness for `sort_price_asc_desc_mutual_reverse` on a store of
three teachers with pairwise distinct prices. -/
theorem sort_price_asc_desc_mutual_reverse_witness :
    (st2.teachers.Pairwise fun a b => a.price ≠ b.price) ∧
    sortByPriceAsc st2.teachers = (sortByPriceDesc st2.teachers).reverse := by
  exact ⟨by decide,
    (sort_price_asc_desc_mutual_reverse st2 id (by decide)).2.2.2⟩

/-- **C4**: `render_profile` returns the generic 404 page for an absent
teacher id; for a present teacher (whose free-map days all have a
weekday row, the spec's invariant) it returns 200 with a free-time
structure listing exactly the (weekday, slot) pairs whose availability
flag is true, each day joined with the Russian name of a weekday row
bearing its short-name. -/
theorem render_profile_correct (st : AppState) (tid : Nat) :
    ((∀ t ∈ st.teachers, t.id ≠ tid) →
      render_profile st tid = Except.ok { status := 404, page := Page.errorPage }) ∧
    (∀ t, st.teachers.find? (fun x => x.id == tid) = some t →
      (∀ p ∈ t.free, ∃ w ∈ st.weekdays, w.short_name = p.1) →
      ∃ ft, render_profile st tid =
          Except.ok { status := 200, page := Page.profilePage t t.goals ft } ∧
        (∀ day slot, (∃ e ∈ ft, e.day = day ∧ slot ∈ e.timeslots) ↔
          ∃ times, (day, times) ∈ t.free ∧ (slot, true) ∈ times) ∧
        (∀ e ∈ ft, ∃ w ∈ st.weekdays, w.short_name = e.day ∧ e.ru_name = w.ru_name)) := by
  constructor
  · intro habs
    have hnone : st.teachers.find? (fun x => x.id == tid) = none :=
      List.find?_eq_none.mpr fun t ht => by simpa using habs t ht
    simp [render_profile, hnone]
  · intro t hfind hcov
    obtain ⟨ft, hft⟩ := freeTimes_total st.weekdays t.free hcov
    obtain ⟨hiff, hru⟩ := freeTimes_spec st.weekdays t.free ft hft
    refine ⟨ft, ?_, hiff, hru⟩
    simp [render_profile, hfind, hft, Except.map]

/-- Witness for `render_profile_correct`: in `st1`, teacher id 999 is
absent (404) and teacher id 1 is present with full weekday coverage. -/
theorem render_profile_correct_witness :
    (∀ t ∈ st1.teachers, t.id ≠ 999) ∧
    render_profile st1 999 = Except.ok { status := 404, page := Page.errorPage } ∧
    st1.teachers.find? (fun x => x.id == 1) = some teacher1 ∧
    (∃ ft, render_profile st1 1 =
        Except.ok { status := 200, page := Page.profilePage teacher1 teacher1.goals ft } ∧
      (∀ day slot, (∃ e ∈ ft, e.day = day ∧ slot ∈ e.timeslots) ↔
        ∃ times, (day, times) ∈ teacher1.free ∧ (slot, true) ∈ times) ∧
      (∀ e ∈ ft, ∃ w ∈ st1.weekdays, w.short_name = e.day ∧ e.ru_name = w.ru_name)) := by
  refine ⟨by decide, (render_profile_correct st1 999).1 (by decide), by decide, ?_⟩
  exact (render_profile_correct st1 1).2 teacher1 (by decide) (by decide)

/-- **C7**: for a Booking submission with a well-formed phone and an
existing teacher id, weekday short-name and time slot, the handler
appends exactly one new `Booking` row carrying exactly the submitted
field values (all other tables unchanged) and renders the confirmation
page. -/
theorem booking_done_appends_exact_row (st : AppState) (sub : BookingSub)
    (hphone : phoneWellFormed sub.phone = true)
    (hwd : ∃ w ∈ st.weekdays, w.short_name = sub.weekday)
    (hslot : ∃ t ∈ st.teachers, t.id = sub.teacher_id ∧
      ∃ times, (sub.weekday, times) ∈ t.free ∧ ∃ b, (sub.time, b) ∈ times) :
    (render_booking_done st sub).1 =
      { st with bookings := st.bookings ++
          [{ name := sub.name, phone := sub.phone, teacher_id := sub.teacher_id,
             day_short_name := sub.weekday, time := sub.time }] } ∧
    ∃ wd, (render_booking_done st sub).2 =
      { status := 200, page := Page.bookingDonePage wd sub.name } := by
  exact ⟨rfl, ⟨_, rfl⟩⟩

/-- Witness for `booking_done_appends_exact_row` at the concrete
submission `subAnn` against `st1`. -/
theorem booking_done_appends_exact_row_witness :
    phoneWellFormed subAnn.phone = true ∧
    (∃ w ∈ st1.weekdays, w.short_name = subAnn.weekday) ∧
    (∃ t ∈ st1.teachers, t.id = subAnn.teacher_id ∧
      ∃ times, (subAnn.weekday, times) ∈ t.free ∧
        ∃ b, (subAnn.time, b) ∈ times) ∧
    ((render_booking_done st1 subAnn).1 =
      { st1 with bookings := st1.bookings ++
          [{ name := subAnn.name, phone := subAnn.phone,
             teacher_id := subAnn.teacher_id,
             day_short_name := subAnn.weekday, time := subAnn.time }] } ∧
     ∃ wd, (render_booking_done st1 subAnn).2 =
       { status := 200, page := Page.bookingDonePage wd subAnn.name }) := by
  have hslot : ∃ t ∈ st1.teachers, t.id = subAnn.teacher_id ∧
      ∃ times, (subAnn.weekday, times) ∈ t.free ∧ ∃ b, (subAnn.time, b) ∈ times :=
    ⟨teacher1, by decide, by decide, [("8:00", true), ("10:00", false)],
     by decide, true, by decide⟩
  exact ⟨by decide, by decide, hslot,
    booking_done_appends_exact_row st1 subAnn (by decide) (by decide) hslot⟩
